import Mathlib

/-
Verification of the nextjs-r3f repository: a shallow embedding of the
Box component (src/components/Scene.tsx), the Scene and AdvancedScene
canvases, the 3d page route (src/app/3d/page.tsx) and the ClientOnly
wrapper (given in full in src/docs/nextjs-r3f-guide.md), together with
theorems settling the behavioural claims about them.
-/

namespace NextjsR3f

/-- A 3D vector with rational components, standing for the (x, y, z)
triples of Three.js positions and Euler rotations. -/
structure Vec3 where
  x : ℚ
  y : ℚ
  z : ℚ
  deriving DecidableEq, Repr

/-- State of one Box component from src/components/Scene.tsx: the two
React useState flags (hovered, active) and the mesh reached through
meshRef (its position prop and its mutable rotation). -/
structure BoxState where
  position : Vec3
  rotation : Vec3
  hovered : Bool
  active : Bool
  deriving DecidableEq, Repr

/-- The onClick handler of Box: setActive(!active). -/
def onClick (s : BoxState) : BoxState := { s with active := !s.active }

/-- The onPointerOver handler of Box: setHover(true). -/
def onPointerOver (s : BoxState) : BoxState := { s with hovered := true }

/-- The onPointerOut handler of Box: setHover(false). -/
def onPointerOut (s : BoxState) : BoxState := { s with hovered := false }

/-- The useFrame callback of Box on a mounted mesh (meshRef.current is
set): meshRef.current.rotation.x += delta. -/
def useFrameStep (delta : ℚ) (s : BoxState) : BoxState :=
  { s with rotation := { s.rotation with x := s.rotation.x + delta } }

/-- The scale prop of the mesh rendered by Box: active ? 1.5 : 1. -/
def boxScale (s : BoxState) : ℚ := if s.active then 1.5 else 1

/-- The color prop of the meshStandardMaterial rendered by Box:
hovered ? hotpink : orange. -/
def boxColor (s : BoxState) : String := if s.hovered then "hotpink" else "orange"

/-- The UI and frame events a Box component reacts to. -/
inductive BoxEvent where
  | click
  | pointerOver
  | pointerOut
  | frame (delta : ℚ)
  deriving DecidableEq, Repr

/-- Dispatch of one event to the matching Box handler. -/
def boxStep (s : BoxState) : BoxEvent → BoxState
  | .click => onClick s
  | .pointerOver => onPointerOver s
  | .pointerOut => onPointerOut s
  | .frame d => useFrameStep d s

/-- A run of a Box component: its state after a sequence of events. -/
def runBox (s : BoxState) (es : List BoxEvent) : BoxState := es.foldl boxStep s

/-- Whether an event is a click event. -/
def isClickEvent : BoxEvent → Bool
  | .click => true
  | _ => false

/-- Whether an event is a pointer-enter or pointer-leave event. -/
def isPointerEvent : BoxEvent → Bool
  | .pointerOver => true
  | .pointerOut => true
  | _ => false

/-- The children placed inside the two Canvas elements of the
repository, as declarative scene objects with their literal props.
Math.PI appears as an explicit parameter piv where the source uses it. -/
inductive SceneObj where
  | ambientLight (intensity : ℚ)
  | spotLight (position : Vec3) (angle penumbra decay intensity : ℚ)
  | pointLight (position : Vec3) (decay intensity : ℚ)
  | box (position : Vec3)
  | sphere (position : Vec3) (color : String) (roughness : ℚ)
  | ground (rotation : Vec3) (position : Vec3) (color : String)
  | environment (preset : String)
  | contactShadows (position : Vec3) (opacity scale blur far : ℚ)
  | orbitControls (enablePan enableZoom enableRotate : Bool)
  deriving DecidableEq, Repr

/-- Whether a scene object is a Box mesh. -/
def isBoxObj : SceneObj → Bool
  | .box _ => true
  | _ => false

/-- The children of the Canvas in Scene (src/components/Scene.tsx):
ambient light, spot light, point light and two Box components. -/
def sceneChildren (piv : ℚ) : List SceneObj :=
  [ .ambientLight (piv / 2)
  , .spotLight ⟨10, 10, 10⟩ 0.15 1 0 piv
  , .pointLight ⟨-10, -10, -10⟩ 0 piv
  , .box ⟨-1.2, 0, 0⟩
  , .box ⟨1.2, 0, 0⟩ ]

/-- The children of the Canvas in AdvancedScene
(src/components/AdvancedScene.tsx), inside the Suspense boundary:
environment, sphere, ground, contact shadows and orbit controls. -/
def advancedChildren (piv : ℚ) : List SceneObj :=
  [ .environment "sunset"
  , .sphere ⟨0, 1, 0⟩ "#ff6b6b" 0.1
  , .ground ⟨-(piv / 2), 0, 0⟩ ⟨0, -1, 0⟩ "#f0f0f0"
  , .contactShadows ⟨0, -1, 0⟩ 0.4 10 1.5 10
  , .orbitControls true true true ]

/-- A Canvas element with the props the repository sets on it. -/
structure CanvasSpec where
  shadows : Bool
  cameraPosition : Option Vec3
  cameraFov : Option ℚ
  children : List SceneObj
  deriving DecidableEq, Repr

/-- The Canvas of Scene: default props, three lights and two boxes. -/
def sceneCanvas (piv : ℚ) : CanvasSpec :=
  { shadows := false
  , cameraPosition := none
  , cameraFov := none
  , children := sceneChildren piv }

/-- The Canvas of AdvancedScene: shadows enabled, camera at [0, 0, 5]
with fov 60. -/
def advancedSceneCanvas (piv : ℚ) : CanvasSpec :=
  { shadows := true
  , cameraPosition := some ⟨0, 0, 5⟩
  , cameraFov := some 60
  , children := advancedChildren piv }

/-- One scene panel of the 3d page: its header texts, the fallback text
of its ClientOnly wrapper and the wrapped Canvas. -/
structure Panel where
  title : String
  description : String
  fallbackText : String
  scene : CanvasSpec
  deriving DecidableEq, Repr

/-- The two panels rendered by ThreeDPage (src/app/3d/page.tsx), in
document order. -/
def ThreeDPagePanels (piv : ℚ) : List Panel :=
  [ { title := "Basic Scene"
    , description := "Interactive spinning boxes - click to scale, hover to change color"
    , fallbackText := "Loading 3D scene..."
    , scene := sceneCanvas piv }
  , { title := "Advanced Scene"
    , description := "Sphere with environment lighting, shadows, and orbit controls"
    , fallbackText := "Loading 3D scene..."
    , scene := advancedSceneCanvas piv } ]

/-- A rendered React node, as far as the ClientOnly contract needs:
null, a text node, or a scene panel. -/
inductive RNode where
  | null
  | text (s : String)
  | scenePanel (c : CanvasSpec)
  deriving DecidableEq, Repr

/-- The render function of ClientOnly, from the full component source in
src/docs/nextjs-r3f-guide.md: if (!hasMounted) return fallback; else
return the children. -/
def ClientOnly (hasMounted : Bool) (children fallback : RNode) : RNode :=
  if !hasMounted then fallback else children

/-- ClientOnly when the fallback prop is not supplied: the destructuring
default fallback = null applies. -/
def ClientOnlyNoFallback (hasMounted : Bool) (children : RNode) : RNode :=
  ClientOnly hasMounted children RNode.null

/-- The initial value of the hasMounted state of ClientOnly:
useState(false). -/
def hasMountedInit : Bool := false

/-- The state updates ClientOnly ever performs: the mount effect is the
only call site of setHasMounted in its source. -/
inductive ClientOnlyEvent where
  | mountEffect
  deriving DecidableEq, Repr

/-- One state update of ClientOnly: the mount effect runs
setHasMounted(true). -/
def clientOnlyStep (_b : Bool) : ClientOnlyEvent → Bool
  | .mountEffect => true

/-- A concrete Box state used by witnesses: the left box of Scene in its
initial state. -/
def box0 : BoxState :=
  { position := ⟨-1.2, 0, 0⟩
  , rotation := ⟨0, 0, 0⟩
  , hovered := false
  , active := false }

lemma runBox_nil (s : BoxState) : runBox s [] = s := rfl

lemma runBox_cons (s : BoxState) (e : BoxEvent) (es : List BoxEvent) :
    runBox s (e :: es) = runBox (boxStep s e) es := rfl

/-- Folding the active flag over click events alone. -/
def clicksFold (a : Bool) (es : List BoxEvent) : Bool :=
  es.foldl (fun a _ => !a) a

/-- Folding the hovered flag over pointer events alone. -/
def hoverFold (a : Bool) (es : List BoxEvent) : Bool :=
  es.foldl (fun a e => if e = BoxEvent.pointerOver then true
    else if e = BoxEvent.pointerOut then false else a) a

lemma runBox_active (s : BoxState) (es : List BoxEvent) :
    (runBox s es).active = clicksFold s.active (es.filter isClickEvent) := by
  induction es generalizing s with
  | nil => rfl
  | cons e es ih =>
    rw [runBox_cons, ih]
    cases e <;> simp [boxStep, onClick, onPointerOver, onPointerOut, useFrameStep,
      isClickEvent, clicksFold, List.filter]

lemma runBox_hovered (s : BoxState) (es : List BoxEvent) :
    (runBox s es).hovered = hoverFold s.hovered (es.filter isPointerEvent) := by
  induction es generalizing s with
  | nil => rfl
  | cons e es ih =>
    rw [runBox_cons, ih]
    cases e <;> simp [boxStep, onClick, onPointerOver, onPointerOut, useFrameStep,
      isPointerEvent, hoverFold, List.filter]

/-- C1: the click handler flips the active flag, the displayed scale is
1.5 when active and 1 when not, and so a click toggles the displayed
scale between 1 and 1.5. -/
theorem claimC1 (s : BoxState) :
    (onClick s).active = !s.active ∧
    boxScale s = (if s.active then (1.5 : ℚ) else 1) ∧
    boxScale (onClick s) = (if s.active then (1 : ℚ) else 1.5) := by
  refine ⟨rfl, rfl, ?_⟩
  cases h : s.active <;> simp [onClick, boxScale, h]

/-- C2: the displayed material color is hotpink exactly when hovered and
orange otherwise, pointer-enter makes hovered true and pointer-leave
makes it false, so hovering turns the box hotpink and leaving restores
orange. -/
theorem claimC2 (s : BoxState) :
    boxColor s = (if s.hovered then "hotpink" else "orange") ∧
    (onPointerOver s).hovered = true ∧
    (onPointerOut s).hovered = false ∧
    boxColor (onPointerOver s) = "hotpink" ∧
    boxColor (onPointerOut s) = "orange" := by
  exact ⟨rfl, rfl, rfl, by simp [onPointerOver, boxColor], by simp [onPointerOut, boxColor]⟩

/-- C3: on every displayed frame the useFrame callback adds exactly the
frame delta to the mesh rotation around x: the new rotation.x is the old
one plus delta. -/
theorem claimC3 (s : BoxState) (d : ℚ) :
    (useFrameStep d s).rotation.x = s.rotation.x + d := rfl

/-- C4 as stated is false: a pointer-enter event does not invert the
hover flag; on a state already hovered it leaves the flag true. -/
theorem claimC4_counterexample :
    ¬ ((boxStep { box0 with hovered := true } BoxEvent.pointerOver).hovered
      = !({ box0 with hovered := true } : BoxState).hovered) := by
  decide

/-- C4 amended: a click event toggles the active flag, while a
pointer-enter event sets the hovered flag to true and a pointer-leave
event sets it to false (they set, they do not invert); each event
touches only its own flag. -/
theorem claimC4 (s : BoxState) :
    (boxStep s BoxEvent.click).active = !s.active ∧
    (boxStep s BoxEvent.pointerOver).hovered = true ∧
    (boxStep s BoxEvent.pointerOut).hovered = false ∧
    (boxStep s BoxEvent.pointerOver).active = s.active ∧
    (boxStep s BoxEvent.pointerOut).active = s.active ∧
    (boxStep s BoxEvent.click).hovered = s.hovered := by
  exact ⟨rfl, rfl, rfl, rfl, rfl, rfl⟩

/-- C5: a ClientOnly instance renders its fallback while hasMounted is
false and its children once hasMounted is true, an omitted fallback
defaults to null, and both panels of the 3d page supply the loading
fallback text. -/
theorem claimC5 (piv : ℚ) (c f : RNode) :
    ClientOnly false c f = f ∧
    ClientOnly true c f = c ∧
    ClientOnlyNoFallback false c = RNode.null ∧
    (ThreeDPagePanels piv).map Panel.fallbackText
      = ["Loading 3D scene...", "Loading 3D scene..."] := by
  exact ⟨rfl, rfl, rfl, rfl⟩

/-- C6: the page route renders exactly two panels, the basic Scene
canvas and the advanced canvas in that order; the basic scene contains
exactly two Box meshes, at [-1.2, 0, 0] and [1.2, 0, 0]; the advanced
scene enables shadows on its canvas and contains the sunset environment,
the sphere, contact shadows and orbit controls. -/
theorem claimC6 (piv : ℚ) :
    (ThreeDPagePanels piv).length = 2 ∧
    (ThreeDPagePanels piv).map Panel.scene = [sceneCanvas piv, advancedSceneCanvas piv] ∧
    (sceneChildren piv).filter isBoxObj
      = [SceneObj.box ⟨-1.2, 0, 0⟩, SceneObj.box ⟨1.2, 0, 0⟩] ∧
    (advancedSceneCanvas piv).shadows = true ∧
    SceneObj.environment "sunset" ∈ advancedChildren piv ∧
    SceneObj.sphere ⟨0, 1, 0⟩ "#ff6b6b" 0.1 ∈ advancedChildren piv ∧
    SceneObj.contactShadows ⟨0, -1, 0⟩ 0.4 10 1.5 10 ∈ advancedChildren piv ∧
    SceneObj.orbitControls true true true ∈ advancedChildren piv := by
  refine ⟨rfl, rfl, ?_, rfl, ?_, ?_, ?_, ?_⟩
  · simp [sceneChildren, isBoxObj, List.filter]
  · simp [advancedChildren]
  · simp [advancedChildren]
  · simp [advancedChildren]
  · simp [advancedChildren]

/-- C7: the click toggle is an involution: two clicks return the Box
state, hence the active flag and the displayed scale, to their original
values. -/
theorem claimC7 (s : BoxState) :
    onClick (onClick s) = s ∧ boxScale (onClick (onClick s)) = boxScale s := by
  have h : onClick (onClick s) = s := by
    cases s with
    | mk p r hov a => simp [onClick]
  exact ⟨h, by rw [h]⟩

/-- C8: a frame update changes only rotation.x: rotation.y, rotation.z,
the position, both state flags, the displayed scale and the displayed
color are unchanged. -/
theorem claimC8 (s : BoxState) (d : ℚ) :
    (useFrameStep d s).rotation.y = s.rotation.y ∧
    (useFrameStep d s).rotation.z = s.rotation.z ∧
    (useFrameStep d s).position = s.position ∧
    (useFrameStep d s).hovered = s.hovered ∧
    (useFrameStep d s).active = s.active ∧
    boxScale (useFrameStep d s) = boxScale s ∧
    boxColor (useFrameStep d s) = boxColor s := by
  exact ⟨rfl, rfl, rfl, rfl, rfl, rfl, rfl⟩

/-- C9: the hasMounted flag of ClientOnly is monotone: every state
update it performs sets the flag to true, never back to false, so a
render of the children is never followed by a render of the fallback. -/
theorem claimC9 :
    (∀ (b : Bool) (e : ClientOnlyEvent), clientOnlyStep b e = true) ∧
    (∀ (b : Bool) (e : ClientOnlyEvent) (c f : RNode),
      ClientOnly b c f = c → ClientOnly (clientOnlyStep b e) c f = c) := by
  constructor
  · intro b e; cases e; rfl
  · intro b e c f _; cases e; rfl

/-- Witness for C9: once ClientOnly renders its children, it still does
after a further mount effect update. -/
theorem claimC9_witness :
    ClientOnly true (RNode.text "scene") RNode.null = RNode.text "scene" ∧
    ClientOnly (clientOnlyStep true ClientOnlyEvent.mountEffect)
      (RNode.text "scene") RNode.null = RNode.text "scene" :=
  ⟨rfl, claimC9.2 true ClientOnlyEvent.mountEffect (RNode.text "scene") RNode.null rfl⟩

/-- C10: hover and click state are independent: pointer events never
change the active flag, click events never change the hovered flag, two
runs from the same state agreeing on their click events display the same
scale, and two runs agreeing on their pointer events display the same
color. -/
theorem claimC10 :
    (∀ s : BoxState, (boxStep s BoxEvent.pointerOver).active = s.active ∧
      (boxStep s BoxEvent.pointerOut).active = s.active) ∧
    (∀ s : BoxState, (boxStep s BoxEvent.click).hovered = s.hovered) ∧
    (∀ (s : BoxState) (es1 es2 : List BoxEvent),
      es1.filter isClickEvent = es2.filter isClickEvent →
      boxScale (runBox s es1) = boxScale (runBox s es2)) ∧
    (∀ (s : BoxState) (es1 es2 : List BoxEvent),
      es1.filter isPointerEvent = es2.filter isPointerEvent →
      boxColor (runBox s es1) = boxColor (runBox s es2)) := by
  refine ⟨fun s => ⟨rfl, rfl⟩, fun s => rfl, ?_, ?_⟩
  · intro s es1 es2 h
    have ha : (runBox s es1).active = (runBox s es2).active := by
      rw [runBox_active, runBox_active, h]
    simp [boxScale, ha]
  · intro s es1 es2 h
    have hh : (runBox s es1).hovered = (runBox s es2).hovered := by
      rw [runBox_hovered, runBox_hovered, h]
    simp [boxColor, hh]

/-- Witness for C10: two concrete runs agreeing on clicks display the
same scale, and two concrete runs agreeing on pointer events display the
same color. -/
theorem claimC10_witness :
    ([BoxEvent.pointerOver, BoxEvent.click].filter isClickEvent
      = [BoxEvent.click, BoxEvent.frame 1].filter isClickEvent) ∧
    boxScale (runBox box0 [BoxEvent.pointerOver, BoxEvent.click])
      = boxScale (runBox box0 [BoxEvent.click, BoxEvent.frame 1]) ∧
    ([BoxEvent.pointerOver, BoxEvent.click].filter isPointerEvent
      = [BoxEvent.pointerOver, BoxEvent.frame 1].filter isPointerEvent) ∧
    boxColor (runBox box0 [BoxEvent.pointerOver, BoxEvent.click])
      = boxColor (runBox box0 [BoxEvent.pointerOver, BoxEvent.frame 1]) :=
  ⟨by decide,
   claimC10.2.2.1 box0 [BoxEvent.pointerOver, BoxEvent.click]
     [BoxEvent.click, BoxEvent.frame 1] (by decide),
   by decide,
   claimC10.2.2.2 box0 [BoxEvent.pointerOver, BoxEvent.click]
     [BoxEvent.pointerOver, BoxEvent.frame 1] (by decide)⟩

end NextjsR3f
